import Mathlib

/-!
A shallow embedding of `src/nextjs-dashboard/app/seed/route.ts`: a Next.js
route handler that seeds a Postgres database with fixture data, with a
bounded connection-retry loop, chunked user insertion, bcrypt password
hashing, and guaranteed connection cleanup in a `finally` block.

External effects (the database, the bcrypt library, failures of the
connection and of individual statements) are made explicit: the database is
a record of row lists, and an `Env` oracle says, per attempt, which of the
operations of that attempt fail and with which error message.  Thrown
values are modelled as their error-message strings (every value the code
itself throws, and every rejection its libraries produce here, is an
`Error` carrying a message).
-/

namespace Seed

/-- `MAX_RETRIES` from `route.ts` line 6. -/
def MAX_RETRIES : Nat := 3

/-- `RETRY_DELAY` (milliseconds) from `route.ts` line 7. -/
def RETRY_DELAY : Nat := 2000

/-- `CHUNK_SIZE` from `route.ts` line 8. -/
def CHUNK_SIZE : Nat := 10

/-- A row of the `users` table (columns from the `CREATE TABLE` statement:
id, name, email, password).  The same shape carries the fixture records,
whose `password` field is the plaintext. -/
structure UserRow where
  id : String
  name : String
  email : String
  password : String
deriving Repr, DecidableEq

/-- A customer record (`{id, name, email, image reference}` per the spec's
data model). -/
structure CustomerRow where
  id : String
  name : String
  email : String
  image_url : String
deriving Repr, DecidableEq

/-- An invoice record (`{id, customer reference, amount, status, date}` per
the spec's data model). -/
structure InvoiceRow where
  id : String
  customer_id : String
  amount : Nat
  status : String
  date : String
deriving Repr, DecidableEq

/-- A revenue record (`{month label, amount}` per the spec's data model). -/
structure RevenueRow where
  month : String
  revenue : Nat
deriving Repr, DecidableEq

/-- The database state: the four seeded tables as row lists. -/
structure Db where
  users : List UserRow
  customers : List CustomerRow
  invoices : List InvoiceRow
  revenue : List RevenueRow
deriving Repr, DecidableEq

/-- Modelled from the spec: `bcrypt.hash` of the bcrypt library is not part
of this repository's sources.  Per the spec, a hash is a salted digest that
differs from the plaintext; it is rendered here as a deterministic tagged
string `"$2b$" ++ cost ++ "$" ++ plaintext`, which is always strictly
longer than the plaintext. -/
def bcryptHash (plain : String) (cost : Nat) : String :=
  "$2b$" ++ toString cost ++ "$" ++ plain

/-- Modelled from the spec: `bcrypt.compare` verifies a plaintext against a
stored hash produced with cost factor 10, the cost the code uses. -/
def bcryptCompare (plain hashed : String) : Bool :=
  hashed == bcryptHash plain 10

/-- Modelled from the spec: the fixture `users` list imported from
`../lib/placeholder-data` (a file that is not under `src/`): user records
carrying an id, a name, an email and a plaintext password. -/
def users : List UserRow :=
  [{ id := "410544b2-4001-4271-9855-fec4b6a6442a", name := "User",
     email := "user@nextmail.com", password := "123456" }]

/-- Modelled from the spec: the fixture `customers` list imported from
`../lib/placeholder-data` (not under `src/`). -/
def customers : List CustomerRow :=
  [{ id := "d6e15727-9fe1-4961-8c5b-ea44a9bd81aa", name := "Evil Rabbit",
     email := "evil@rabbit.com", image_url := "/customers/evil-rabbit.png" },
   { id := "3958dc9e-712f-4377-85e9-fec4b6a6442a", name := "Delba de Oliveira",
     email := "delba@oliveira.com", image_url := "/customers/delba-de-oliveira.png" }]

/-- Modelled from the spec: the fixture `invoices` list imported from
`../lib/placeholder-data` (not under `src/`). -/
def invoices : List InvoiceRow :=
  [{ id := "inv-1", customer_id := "d6e15727-9fe1-4961-8c5b-ea44a9bd81aa",
     amount := 15795, status := "pending", date := "2022-12-06" },
   { id := "inv-2", customer_id := "3958dc9e-712f-4377-85e9-fec4b6a6442a",
     amount := 20348, status := "paid", date := "2022-11-14" }]

/-- Modelled from the spec: the fixture `revenue` list imported from
`../lib/placeholder-data` (not under `src/`). -/
def revenue : List RevenueRow :=
  [{ month := "Jan", revenue := 2000 }, { month := "Feb", revenue := 1800 }]

/-- The effect of one
`INSERT INTO users ... ON CONFLICT (id) DO NOTHING` statement against the
table created by the handler (whose `email` column is `UNIQUE`): a row
whose id is already present is silently skipped; a new id with an email
already present violates the unique constraint and the statement fails;
otherwise the row is appended. -/
def insertUser (table : List UserRow) (r : UserRow) : Except String (List UserRow) :=
  if table.any (fun s => s.id == r.id) then Except.ok table
  else if table.any (fun s => s.email == r.email) then
    Except.error "duplicate key value violates unique constraint"
  else Except.ok (table ++ [r])

/-- The per-user transformation of `seedUsers`: the plaintext password is
replaced by its bcrypt hash with cost factor 10 before insertion. -/
def hashUser (u : UserRow) : UserRow :=
  { u with password := bcryptHash u.password 10 }

/-- The chunking of the `for (let i = 0; i < users.length; i += CHUNK_SIZE)`
loop of `seedUsers`: successive slices `users.slice(i, i + CHUNK_SIZE)`.
`fuel` is the loop bound; `userChunks` supplies `l.length`, which is never
exhausted, so the fuel-out branch returning `[]` is unreachable. -/
def userChunksGo : Nat → List UserRow → List (List UserRow)
  | _, [] => []
  | 0, _ :: _ => []
  | f + 1, u :: rest =>
    ((u :: rest).take CHUNK_SIZE) :: userChunksGo f ((u :: rest).drop CHUNK_SIZE)

/-- The list of successive `CHUNK_SIZE`-sized slices of `l`. -/
def userChunks (l : List UserRow) : List (List UserRow) :=
  userChunksGo l.length l

/-- The inserts of one chunk (the body of the `Promise.all`): each user is
hashed and inserted.  The concurrent dispatch is modelled by a
linearization that applies the inserts in list order and stops at the
first failing statement, whose error the chunk rethrows; the table state
reached before the failure is kept (partial effects persist). -/
def seedChunk (table : List UserRow) : List UserRow → Option String × List UserRow
  | [] => (none, table)
  | u :: rest =>
    match insertUser table (hashUser u) with
    | Except.error e => (some e, table)
    | Except.ok t => seedChunk t rest

/-- The sequential chunk loop of `seedUsers`: chunks are processed one
after the other; a failing chunk aborts the loop and its error propagates
(`seedUsers` catches, logs and rethrows it unchanged). -/
def seedChunks (table : List UserRow) : List (List UserRow) → Option String × List UserRow
  | [] => (none, table)
  | c :: cs =>
    match seedChunk table c with
    | (some e, t) => (some e, t)
    | (none, t) => seedChunks t cs

/-- `seedUsers` from `route.ts`: hash-then-insert every fixture user,
processed in chunks of `CHUNK_SIZE`.  Returns the thrown error message, if
any, and the users table afterwards. -/
def seedUsers (table : List UserRow) : Option String × List UserRow :=
  seedChunks table (userChunks users)

/-- The failure oracle for one invocation: for each attempt number it
says whether each external operation of that attempt fails and with which
error message.  `connectFail`: `createConnection` throws.  `testOk`:
`testConnection` succeeds (it swallows its own error and returns `false`,
upon which the handler throws `Error('Connection test failed')`).
`extFail` / `tableFail`: the `CREATE EXTENSION` / `CREATE TABLE`
statements reject.  `hashFail`: `bcrypt.hash` rejects during this
attempt's `seedUsers` (modelled as rejecting before any of this attempt's
inserts, one admissible linearization of the failing `Promise.all`).
`closeFail`: `sql.end()` in the `finally` block rejects. -/
structure Env where
  connectFail : Nat → Option String
  testOk : Nat → Bool
  extFail : Nat → Option String
  tableFail : Nat → Option String
  hashFail : Nat → Option String
  closeFail : Nat → Option String

/-- The JSON body of a response: `{message: string}` or `{error: string}`. -/
inductive RespBody where
  | message (s : String)
  | error (s : String)
deriving Repr, DecidableEq

/-- An HTTP response as the handler builds it: a status code, a JSON body
and the `Content-Type` header value. -/
structure Response where
  status : Nat
  body : RespBody
  contentType : String
deriving Repr, DecidableEq

/-- The observable outcome of one invocation of `GET`: the response, the
database afterwards, the number of attempts run, the backoff sleeps
performed (in order, in milliseconds), how many times `sql.end()` was
attempted and which of those attempts rejected, whether a created
connection was left without a close attempt at exit, the last error caught
by the `catch` block, and whether the response came from the fallback
return after the `while` loop. -/
structure RunResult where
  response : Response
  db : Db
  attempts : Nat
  delays : List Nat
  closesAttempted : Nat
  closeErrors : List String
  unclosedAtExit : Bool
  lastError : Option String
  fromFallback : Bool
deriving Repr, DecidableEq

/-- The success response of `GET` (status 200). -/
def successResponse : Response :=
  { status := 200, body := RespBody.message "Database seeded successfully",
    contentType := "application/json" }

/-- The failure response of `GET` (status 500) carrying the caught error's
message. -/
def failureResponse (e : String) : Response :=
  { status := 500, body := RespBody.error e, contentType := "application/json" }

/-- The fallback response after the `while` loop. -/
def fallbackResponse : Response :=
  failureResponse "Unexpected error in seeding process"

/-- The `try` block of one loop iteration: create the connection, test it,
ensure the extension and the users table (`CREATE ... IF NOT EXISTS`
preserves existing rows and touches no other table), then run `seedUsers`.
Returns the caught error message if the block threw, the database
afterwards, and whether `sql` was assigned a newly created connection. -/
def runAttempt (env : Env) (attempt : Nat) (db : Db) : Option String × Db × Bool :=
  match env.connectFail attempt with
  | some e => (some e, db, false)
  | none =>
    if env.testOk attempt = false then (some "Connection test failed", db, true)
    else match env.extFail attempt with
    | some e => (some e, db, true)
    | none => match env.tableFail attempt with
      | some e => (some e, db, true)
      | none => match env.hashFail attempt with
        | some e => (some e, db, true)
        | none =>
          match seedUsers db.users with
          | (some e, t) => (some e, { db with users := t }, true)
          | (none, t) => (none, { db with users := t }, true)

/-- The `while (attempt <= MAX_RETRIES)` loop of `GET`.  `fuel` is a
structural bound on the number of iterations; `GET` supplies
`MAX_RETRIES + 1`, which the loop never exhausts, so the fuel-out branch
coincides with the loop-exit fallback.  Each iteration runs the `try`
block (`runAttempt`); on success it returns the 200 response; on error it
returns the 500 response when `attempt >= MAX_RETRIES` and otherwise
sleeps `RETRY_DELAY * attempt` and retries with `attempt + 1`.  The
`finally` block runs before every exit of the iteration: when the `sql`
variable is set it attempts `sql.end()`, and a rejection of the close is
caught and only recorded (`closeErrors`), never changing the result. -/
def getLoop (env : Env) (fuel attempt : Nat) (db : Db) (sqlSet : Bool)
    (delays : List Nat) (closes : Nat) (closeErrs : List String)
    (openConn : Bool) (lastErr : Option String) : RunResult :=
  match fuel with
  | 0 =>
    { response := fallbackResponse, db := db, attempts := attempt - 1,
      delays := delays, closesAttempted := closes, closeErrors := closeErrs,
      unclosedAtExit := openConn, lastError := lastErr, fromFallback := true }
  | f + 1 =>
    if MAX_RETRIES < attempt then
      { response := fallbackResponse, db := db, attempts := attempt - 1,
        delays := delays, closesAttempted := closes, closeErrors := closeErrs,
        unclosedAtExit := openConn, lastError := lastErr, fromFallback := true }
    else
      match runAttempt env attempt db with
      | (res, db2, connCreated) =>
        let sqlSet2 := sqlSet || connCreated
        let closes2 := if sqlSet2 then closes + 1 else closes
        let closeErrs2 :=
          if sqlSet2 then
            match env.closeFail attempt with
            | some ce => closeErrs ++ [ce]
            | none => closeErrs
          else closeErrs
        let openConn2 := if sqlSet2 then false else (openConn || connCreated)
        match res with
        | none =>
          { response := successResponse, db := db2, attempts := attempt,
            delays := delays, closesAttempted := closes2, closeErrors := closeErrs2,
            unclosedAtExit := openConn2, lastError := lastErr, fromFallback := false }
        | some e =>
          if MAX_RETRIES ≤ attempt then
            { response := failureResponse e, db := db2, attempts := attempt,
              delays := delays, closesAttempted := closes2, closeErrors := closeErrs2,
              unclosedAtExit := openConn2, lastError := some e, fromFallback := false }
          else
            getLoop env f (attempt + 1) db2 sqlSet2 (delays ++ [RETRY_DELAY * attempt])
              closes2 closeErrs2 openConn2 (some e)

/-- The `GET` handler of `route.ts`: `sql = null`, `attempt = 1`, then the
retry loop, then the fallback response. -/
def GET (env : Env) (db : Db) : RunResult :=
  getLoop env (MAX_RETRIES + 1) 1 db false [] 0 [] false none

/-- The environment in which every external operation succeeds. -/
def envOk : Env :=
  { connectFail := fun _ => none, testOk := fun _ => true,
    extFail := fun _ => none, tableFail := fun _ => none,
    hashFail := fun _ => none, closeFail := fun _ => none }

/-- The empty database: all four tables empty. -/
def emptyDb : Db := { users := [], customers := [], invoices := [], revenue := [] }

/-- The delays of the backoff schedule after `n` failed attempts:
`RETRY_DELAY * 1, ..., RETRY_DELAY * n`. -/
def backoffDelays (n : Nat) : List Nat :=
  (List.range n).map (fun k => RETRY_DELAY * (k + 1))

/-- Equality of run results up to the close-error log: the response, the
database, the attempt count, the sleeps, the close-attempt count, the
open-at-exit flag, the last caught error and the fallback flag all agree. -/
def sameButCloseLog (r s : RunResult) : Prop :=
  r.response = s.response ∧ r.db = s.db ∧ r.attempts = s.attempts ∧
  r.delays = s.delays ∧ r.closesAttempted = s.closesAttempted ∧
  r.unclosedAtExit = s.unclosedAtExit ∧ r.lastError = s.lastError ∧
  r.fromFallback = s.fromFallback

/-- The loop invariant that every exit of the retry loop satisfies when it
is entered with `attempt ≤ MAX_RETRIES` and enough fuel: the fallback is
not taken, at most `MAX_RETRIES` attempts run, the sleeps performed are
exactly the backoff schedule for the failed attempts, and the response is
the success response or the failure response carrying the last caught
error, the latter only at attempt `MAX_RETRIES`. -/
def LoopInv (r : RunResult) : Prop :=
  r.fromFallback = false ∧ r.attempts ≤ MAX_RETRIES ∧
  r.delays = backoffDelays (r.attempts - 1) ∧
  (r.response = successResponse ∨
    ∃ e, r.response = failureResponse e ∧ r.lastError = some e ∧
      r.attempts = MAX_RETRIES)

theorem backoffDelays_succ (n : Nat) :
    backoffDelays (n + 1) = backoffDelays n ++ [RETRY_DELAY * (n + 1)] := by
  simp [backoffDelays, List.range_succ]

theorem getLoop_master (env : Env) : ∀ fuel attempt : Nat, ∀ (db : Db) (sqlSet : Bool)
    (closes : Nat) (closeErrs : List String) (openConn : Bool) (lastErr : Option String),
    1 ≤ attempt → attempt ≤ MAX_RETRIES → MAX_RETRIES + 1 ≤ attempt + fuel →
    attempt ≤ (getLoop env fuel attempt db sqlSet (backoffDelays (attempt - 1))
      closes closeErrs openConn lastErr).attempts ∧
    LoopInv (getLoop env fuel attempt db sqlSet (backoffDelays (attempt - 1))
      closes closeErrs openConn lastErr) := by
  intro fuel
  induction fuel with
  | zero =>
    intro attempt db sqlSet closes closeErrs openConn lastErr h1 h2 h3
    omega
  | succ f ih =>
    intro attempt db sqlSet closes closeErrs openConn lastErr h1 h2 h3
    rw [getLoop]
    rw [if_neg (by omega)]
    rcases hra : runAttempt env attempt db with ⟨res, db2, conn⟩
    rcases res with _ | e
    · refine ⟨Nat.le_refl _, rfl, h2, rfl, Or.inl rfl⟩
    · dsimp only
      by_cases hlast : MAX_RETRIES ≤ attempt
      · rw [if_pos hlast]
        have heq : attempt = MAX_RETRIES := Nat.le_antisymm h2 hlast
        exact ⟨Nat.le_refl _, rfl, h2, rfl, Or.inr ⟨e, rfl, rfl, heq⟩⟩
      · rw [if_neg hlast]
        have hdel : backoffDelays (attempt - 1) ++ [RETRY_DELAY * attempt] =
            backoffDelays (attempt + 1 - 1) := by
          have h4 : attempt + 1 - 1 = (attempt - 1) + 1 := by omega
          rw [h4, backoffDelays_succ]
          have h5 : attempt - 1 + 1 = attempt := by omega
          rw [h5]
        rw [hdel]
        have hrec := ih (attempt + 1) db2 (sqlSet || conn)
          (if sqlSet || conn then closes + 1 else closes)
          (if sqlSet || conn then
            match env.closeFail attempt with
            | some ce => closeErrs ++ [ce]
            | none => closeErrs
           else closeErrs)
          (if sqlSet || conn then false else (openConn || conn))
          (some e) (by omega) (by omega) (by omega)
        exact ⟨Nat.le_of_succ_le hrec.1, hrec.2⟩

theorem GET_master (env : Env) (db : Db) :
    1 ≤ (GET env db).attempts ∧ LoopInv (GET env db) :=
  getLoop_master env (MAX_RETRIES + 1) 1 db false 0 [] false none
    (by decide) (by decide) (by decide)

theorem insertUser_mem {t t2 : List UserRow} {u r : UserRow}
    (hok : insertUser t u = Except.ok t2) (h : r ∈ t) : r ∈ t2 := by
  unfold insertUser at hok
  split at hok
  · cases hok; exact h
  · split at hok
    · cases hok
    · cases hok; exact List.mem_append_left _ h

theorem seedChunk_mem (c : List UserRow) : ∀ (t : List UserRow) (r : UserRow),
    r ∈ t → r ∈ (seedChunk t c).2 := by
  induction c with
  | nil => intro t r h; exact h
  | cons u rest ih =>
    intro t r h
    rw [seedChunk]
    rcases hins : insertUser t (hashUser u) with e | t2
    · exact h
    · exact ih t2 r (insertUser_mem hins h)

theorem seedChunks_mem (cs : List (List UserRow)) : ∀ (t : List UserRow) (r : UserRow),
    r ∈ t → r ∈ (seedChunks t cs).2 := by
  induction cs with
  | nil => intro t r h; exact h
  | cons c rest ih =>
    intro t r h
    rw [seedChunks]
    rcases hc : seedChunk t c with ⟨err, t2⟩
    have h2 : r ∈ t2 := by
      have h3 := seedChunk_mem c t r h
      rw [hc] at h3
      exact h3
    rcases err with _ | e
    · exact ih t2 r h2
    · exact h2

theorem seedUsers_mem (t : List UserRow) (r : UserRow) (h : r ∈ t) :
    r ∈ (seedUsers t).2 :=
  seedChunks_mem (userChunks users) t r h

theorem runAttempt_mem (env : Env) (a : Nat) (db : Db) (r : UserRow)
    (h : r ∈ db.users) : r ∈ (runAttempt env a db).2.1.users := by
  unfold runAttempt
  split
  · exact h
  · split
    · exact h
    · split
      · exact h
      · split
        · exact h
        · split
          · exact h
          · rcases hseed : seedUsers db.users with ⟨err, t⟩
            have h2 : r ∈ t := by
              have h3 := seedUsers_mem db.users r h
              rw [hseed] at h3
              exact h3
            rcases err with _ | e
            · exact h2
            · exact h2

theorem getLoop_mem (env : Env) : ∀ fuel attempt : Nat, ∀ (db : Db) (sqlSet : Bool)
    (delays : List Nat) (closes : Nat) (closeErrs : List String) (openConn : Bool)
    (lastErr : Option String) (r : UserRow), r ∈ db.users →
    r ∈ (getLoop env fuel attempt db sqlSet delays closes closeErrs openConn lastErr).db.users := by
  intro fuel
  induction fuel with
  | zero =>
    intro attempt db sqlSet delays closes closeErrs openConn lastErr r h
    exact h
  | succ f ih =>
    intro attempt db sqlSet delays closes closeErrs openConn lastErr r h
    rw [getLoop]
    split
    · exact h
    · rcases hra : runAttempt env attempt db with ⟨res, db2, conn⟩
      have h2 : r ∈ db2.users := by
        have h3 := runAttempt_mem env attempt db r h
        rw [hra] at h3
        exact h3
      rcases res with _ | e
      · exact h2
      · dsimp only
        split
        · exact h2
        · exact ih (attempt + 1) db2 _ _ _ _ _ _ r h2

theorem runAttempt_closeFail (env : Env) (cf : Nat → Option String) (a : Nat) (db : Db) :
    runAttempt { env with closeFail := cf } a db = runAttempt env a db := rfl

theorem getLoop_closeFail (env : Env) (cf : Nat → Option String) :
    ∀ fuel attempt : Nat, ∀ (db : Db) (sqlSet : Bool) (delays : List Nat) (closes : Nat)
    (ce1 ce2 : List String) (openConn : Bool) (lastErr : Option String),
    sameButCloseLog
      (getLoop { env with closeFail := cf } fuel attempt db sqlSet delays closes ce1 openConn lastErr)
      (getLoop env fuel attempt db sqlSet delays closes ce2 openConn lastErr) := by
  intro fuel
  induction fuel with
  | zero =>
    intro attempt db sqlSet delays closes ce1 ce2 openConn lastErr
    exact ⟨rfl, rfl, rfl, rfl, rfl, rfl, rfl, rfl⟩
  | succ f ih =>
    intro attempt db sqlSet delays closes ce1 ce2 openConn lastErr
    rw [getLoop, getLoop]
    by_cases ha : MAX_RETRIES < attempt
    · rw [if_pos ha, if_pos ha]
      exact ⟨rfl, rfl, rfl, rfl, rfl, rfl, rfl, rfl⟩
    · rw [if_neg ha, if_neg ha]
      have hsame := runAttempt_closeFail env cf attempt db
      rcases hra : runAttempt env attempt db with ⟨res, db2, conn⟩
      rw [hsame, hra]
      dsimp only
      rcases res with _ | e
      · exact ⟨rfl, rfl, rfl, rfl, rfl, rfl, rfl, rfl⟩
      · dsimp only
        by_cases hlast : MAX_RETRIES ≤ attempt
        · rw [if_pos hlast, if_pos hlast]
          exact ⟨rfl, rfl, rfl, rfl, rfl, rfl, rfl, rfl⟩
        · rw [if_neg hlast, if_neg hlast]
          exact ih (attempt + 1) db2 _ _ _ _ _ _ (some e)

theorem getLoop_closed (env : Env) : ∀ fuel attempt : Nat, ∀ (db : Db) (sqlSet : Bool)
    (delays : List Nat) (closes : Nat) (closeErrs : List String) (lastErr : Option String),
    (getLoop env fuel attempt db sqlSet delays closes closeErrs false lastErr).unclosedAtExit
      = false := by
  intro fuel
  induction fuel with
  | zero =>
    intro attempt db sqlSet delays closes closeErrs lastErr
    rfl
  | succ f ih =>
    intro attempt db sqlSet delays closes closeErrs lastErr
    rw [getLoop]
    split
    · rfl
    · rcases hra : runAttempt env attempt db with ⟨res, db2, conn⟩
      dsimp only
      rcases res with _ | e
      · cases sqlSet <;> cases conn <;> rfl
      · dsimp only
        split
        · cases sqlSet <;> cases conn <;> rfl
        · cases sqlSet <;> cases conn <;> exact ih (attempt + 1) db2 _ _ _ _ _

theorem userChunksGo_flatten : ∀ (fuel : Nat) (l : List UserRow), l.length ≤ fuel →
    (userChunksGo fuel l).flatten = l := by
  intro fuel
  induction fuel with
  | zero =>
    intro l h
    cases l with
    | nil => rfl
    | cons u rest => simp at h
  | succ f ih =>
    intro l h
    cases l with
    | nil => rfl
    | cons u rest =>
      rw [userChunksGo, List.flatten_cons]
      rw [ih ((u :: rest).drop CHUNK_SIZE) (by
        rw [List.length_drop]
        simp only [List.length_cons] at h ⊢
        simp only [CHUNK_SIZE]
        omega)]
      exact List.take_append_drop CHUNK_SIZE (u :: rest)

theorem userChunks_flatten (l : List UserRow) : (userChunks l).flatten = l :=
  userChunksGo_flatten l.length l (Nat.le_refl _)

/-- The environment of the C1 counterexample: `bcrypt.hash` rejects during
attempt 1 and every other operation succeeds. -/
def envC1 : Env :=
  { envOk with hashFail := fun n => if n == 1 then some "bcrypt hash failure" else none }

/-- The environment in which `createConnection` throws at every attempt. -/
def envAllFail : Env :=
  { envOk with connectFail := fun _ => some "connection refused" }

/-- C1 (counterexample): a hashing failure during attempt 1 does NOT abort
the invocation with the failure response; the catch-all handler retries it
like a connection failure, a second attempt runs, and the invocation
returns status 200. -/
theorem claim_C1_counterexample :
    envC1.hashFail 1 = some "bcrypt hash failure" ∧
    envC1.connectFail 1 = none ∧
    (GET envC1 emptyDb).attempts = 2 ∧
    (GET envC1 emptyDb).response.status = 200 :=
  ⟨rfl, rfl, by decide, by decide⟩

/-- C1 (amended): every failure during an attempt — connection, hashing and
insertion alike — is caught by the same catch block and retried while the
attempt count is below `MAX_RETRIES`; the failure response is produced only
when the failure occurs at attempt `MAX_RETRIES`, so a 500 response implies
that all `MAX_RETRIES` attempts ran. -/
theorem claim_C1_amended (env : Env) (db : Db)
    (h : (GET env db).response.status = 500) : (GET env db).attempts = MAX_RETRIES := by
  obtain ⟨-, hinv⟩ := GET_master env db
  unfold LoopInv at hinv
  obtain ⟨-, -, -, hresp⟩ := hinv
  rcases hresp with hs | ⟨e, hf, -, hn⟩
  · rw [hs] at h
    exact absurd h (by decide)
  · exact hn

/-- C1 (witness): with a connection failure at every attempt, the response
has status 500 and all `MAX_RETRIES` attempts ran. -/
theorem claim_C1_witness :
    (GET envAllFail emptyDb).response.status = 500 ∧
    (GET envAllFail emptyDb).attempts = MAX_RETRIES :=
  ⟨by decide, claim_C1_amended envAllFail emptyDb (by decide)⟩

/-- C2 (counterexample): two successive successful invocations starting
from the empty database do NOT leave each of the four tables at its
fixture row count: the customers table (like invoices and revenue) is
never seeded — its seeding call is commented out — and stays empty. -/
theorem claim_C2_counterexample :
    (GET envOk emptyDb).response.status = 200 ∧
    (GET envOk (GET envOk emptyDb).db).response.status = 200 ∧
    (GET envOk (GET envOk emptyDb).db).db.customers.length ≠ customers.length :=
  ⟨by decide, by decide, by decide⟩

/-- C2 (amended): starting from an empty users table (the other tables
arbitrary), invoking `GET` twice with every operation succeeding leaves
the users table with exactly the fixture-defined row count — the inserts
are conflict-ignored on id, so the second run changes nothing — while the
customers, invoices and revenue tables are left exactly as they were,
because the handler does not seed them. -/
theorem claim_C2_amended (c : List CustomerRow) (iv : List InvoiceRow) (rv : List RevenueRow) :
    (GET envOk { users := [], customers := c, invoices := iv, revenue := rv }).response.status = 200 ∧
    (GET envOk (GET envOk { users := [], customers := c, invoices := iv, revenue := rv }).db).response.status = 200 ∧
    (GET envOk (GET envOk { users := [], customers := c, invoices := iv, revenue := rv }).db).db.users.length = users.length ∧
    (GET envOk (GET envOk { users := [], customers := c, invoices := iv, revenue := rv }).db).db.customers = c ∧
    (GET envOk (GET envOk { users := [], customers := c, invoices := iv, revenue := rv }).db).db.invoices = iv ∧
    (GET envOk (GET envOk { users := [], customers := c, invoices := iv, revenue := rv }).db).db.revenue = rv :=
  ⟨rfl, rfl, rfl, rfl, rfl, rfl⟩

/-- A users row present in the database before the invocation, distinct
from every fixture row. -/
def preRow : UserRow :=
  { id := "pre-0000", name := "Pre Existing", email := "pre@example.com",
    password := "plain" }

/-- A database whose users table already holds `preRow`. -/
def dbPre : Db := { users := [preRow], customers := [], invoices := [], revenue := [] }

/-- C3 (counterexample): the handler does NOT clear prior rows: a row
present in the users table before a successful invocation is still there
afterwards, alongside the inserted fixture rows. -/
theorem claim_C3_counterexample :
    (GET envOk dbPre).response.status = 200 ∧
    preRow ∈ (GET envOk dbPre).db.users ∧
    (GET envOk dbPre).db.users.length = users.length + 1 :=
  ⟨by decide, by decide, by decide⟩

/-- C3 (amended): the handler never removes rows: every users row present
before the invocation is still present after it, whatever the environment
does; fixture rows are only added, with `ON CONFLICT (id) DO NOTHING`
skipping conflicting ids rather than replacing them. -/
theorem claim_C3_amended (env : Env) (db : Db) (r : UserRow) (h : r ∈ db.users) :
    r ∈ (GET env db).db.users :=
  getLoop_mem env (MAX_RETRIES + 1) 1 db false [] 0 [] false none r h

/-- C3 (witness): the pre-existing row of `dbPre` survives an invocation. -/
theorem claim_C3_witness :
    preRow ∈ dbPre.users ∧ preRow ∈ (GET envOk dbPre).db.users :=
  ⟨by decide, claim_C3_amended envOk dbPre preRow (by decide)⟩

/-- C4: on every exit path of `GET`, whenever a connection was created its
close was attempted before returning (`unclosedAtExit` is always `false`),
and a failure of `sql.end()` itself — any `closeFail` oracle — changes
nothing observable but the close-error log: the response, the database,
the attempt count, the sleeps, the close-attempt count and the fallback
flag are identical. -/
theorem claim_C4 (env : Env) (db : Db) (cf : Nat → Option String) :
    (GET env db).unclosedAtExit = false ∧
    sameButCloseLog (GET { env with closeFail := cf } db) (GET env db) :=
  ⟨getLoop_closed env (MAX_RETRIES + 1) 1 db false [] 0 [] none,
   getLoop_closeFail env cf (MAX_RETRIES + 1) 1 db false [] 0 [] [] false none⟩

/-- C5: for every environment and database, `GET` runs between 1 and
`MAX_RETRIES` attempts, the sleeps it performs are exactly the growing
backoff schedule `RETRY_DELAY * 1, ..., RETRY_DELAY * (attempts - 1)`
between successive attempts, and their total is bounded by
`RETRY_DELAY * MAX_RETRIES`, so the handler terminates within the
retry-count times backoff-delay bound. -/
theorem claim_C5 (env : Env) (db : Db) :
    1 ≤ (GET env db).attempts ∧ (GET env db).attempts ≤ MAX_RETRIES ∧
    (GET env db).delays = backoffDelays ((GET env db).attempts - 1) ∧
    (GET env db).delays.sum ≤ RETRY_DELAY * MAX_RETRIES := by
  obtain ⟨h1, hinv⟩ := GET_master env db
  unfold LoopInv at hinv
  obtain ⟨-, hle, hdel, -⟩ := hinv
  refine ⟨h1, hle, hdel, ?_⟩
  rw [hdel]
  have hb : (GET env db).attempts - 1 = 0 ∨ (GET env db).attempts - 1 = 1 ∨
      (GET env db).attempts - 1 = 2 := by
    simp only [MAX_RETRIES] at hle
    omega
  rcases hb with h | h | h <;> rw [h] <;> decide

/-- C6: no exception escapes `GET` (it is a total function into
responses), and its outcome is either the fixed success message with
status 200 or a status-500 response whose body carries exactly the message
of the error caught by the handler's catch block at the final attempt. -/
theorem claim_C6 (env : Env) (db : Db) :
    ((GET env db).response.status = 200 ∧
      (GET env db).response.body = RespBody.message "Database seeded successfully") ∨
    (∃ e, (GET env db).response.status = 500 ∧
      (GET env db).response.body = RespBody.error e ∧
      (GET env db).lastError = some e) := by
  obtain ⟨-, hinv⟩ := GET_master env db
  unfold LoopInv at hinv
  obtain ⟨-, -, -, hresp⟩ := hinv
  rcases hresp with hs | ⟨e, hf, hl, -⟩
  · left
    rw [hs]
    exact ⟨rfl, rfl⟩
  · right
    exact ⟨e, by rw [hf]; rfl, by rw [hf]; rfl, hl⟩

/-- C7: every response of `GET` is JSON (`Content-Type: application/json`)
and has one of exactly two shapes: status 200 with a `{message: string}`
body, or status 500 with an `{error: string}` body. -/
theorem claim_C7 (env : Env) (db : Db) :
    (GET env db).response.contentType = "application/json" ∧
    (((GET env db).response.status = 200 ∧
        ∃ m, (GET env db).response.body = RespBody.message m) ∨
      ((GET env db).response.status = 500 ∧
        ∃ e, (GET env db).response.body = RespBody.error e)) := by
  obtain ⟨-, hinv⟩ := GET_master env db
  unfold LoopInv at hinv
  obtain ⟨-, -, -, hresp⟩ := hinv
  rcases hresp with hs | ⟨e, hf, -, -⟩
  · rw [hs]
    exact ⟨rfl, Or.inl ⟨rfl, "Database seeded successfully", rfl⟩⟩
  · rw [hf]
    exact ⟨rfl, Or.inr ⟨rfl, e, rfl⟩⟩

/-- C8: after a successful seeding of the empty database, every fixture
user's stored password is its bcrypt hash with cost factor 10, differs
from the plaintext fixture password, and verifies against that plaintext
under the hashing scheme. -/
theorem claim_C8 :
    users.all (fun u =>
      (GET envOk emptyDb).db.users.any (fun s =>
        (s.id == u.id) && (s.password == bcryptHash u.password 10) &&
        (s.password != u.password) && bcryptCompare u.password s.password)) = true := by
  decide

/-- C9: `seedUsers` is definitionally the chunk loop over the successive
`CHUNK_SIZE`-sized slices of the fixture `users` list, and for every list
the concatenation of those slices is the list itself — the chunked
iteration covers every fixture user exactly once, no user twice, with the
same coverage as iterating the whole list. -/
theorem claim_C9 :
    (∀ t : List UserRow, seedUsers t = seedChunks t (userChunks users)) ∧
    (∀ l : List UserRow, (userChunks l).flatten = l) :=
  ⟨fun _ => rfl, userChunks_flatten⟩

/-- C10: the fallback response after the retry loop is unreachable: for
every environment and database state, `GET` returns from inside the loop,
because the attempt counter is incremented only while strictly below
`MAX_RETRIES` and a failure at attempt `MAX_RETRIES` returns directly. -/
theorem claim_C10 (env : Env) (db : Db) : (GET env db).fromFallback = false :=
  (GET_master env db).2.1

end Seed
